import Mathlib

/-!
Verification of the SOC training simulator's content-synthesis engine and
enrichment simulator, shallowly embedded from
`backend/services/scenario_generator_service.py` and
`backend/services/investigation_tools_service.py`.

Modelling conventions:
* `datetime` values are integers counting seconds (UTC epoch); `timedelta`
  arithmetic becomes integer arithmetic (5 min = 300 s, 2 h = 7200 s,
  24 h = 86400 s).  `isoformat`/`strftime` rendering is abstracted to
  `toString` of the integer timestamp — no claim inspects the rendering.
* Python's process-wide `random` source is an explicit oracle `Rng`
  threaded in the exact order the source draws from it: `random.random()`
  and `random.uniform` consume the rational stream, `random.randint` and
  `random.choice` consume the natural-number stream.  `random.choice`
  selects the element at `draw % len`.
* `uuid.uuid4()` is a draw from the same oracle; identities are `Nat` and
  Python's `str(uuid)` is the identity itself.
* Python's builtin `hash` (process-stable string hash) is an explicit
  parameter `pyhash : String → Int`; Python `%` on `int` is `Int.emod`.
* Dict-shaped payloads become structures; a key that a code path omits
  becomes an `Option` field that is `none` on that path.
-/

namespace SocSim

/-! ### Random oracle -/

structure Rng where
  nats : Nat → Nat
  rats : Nat → ℚ
  ni : Nat
  ri : Nat

def randNat (g : Rng) : Nat × Rng :=
  (g.nats g.ni, { g with ni := g.ni + 1 })

def randRat (g : Rng) : ℚ × Rng :=
  (g.rats g.ri, { g with ri := g.ri + 1 })

/-- Python `random.randint(a, b)` (inclusive bounds), oracle-driven. -/
def randint (a b : Int) (g : Rng) : Int × Rng :=
  let p := randNat g
  (a + (p.1 : Int) % (b - a + 1), p.2)

/-- Python `random.choice(l)` on a non-empty list, modelled as selection of
the element at `draw % length`; `d` is a fallback never reached at the
call sites (all lists are non-empty constants). -/
def pychoice {α : Type} (l : List α) (d : α) (g : Rng) : α × Rng :=
  let p := randNat g
  (l.getD (p.1 % l.length) d, p.2)

/-- Python `random.random()`, an unconstrained rational draw (the source
only compares it against constants). -/
def pyrandom (g : Rng) : ℚ × Rng := randRat g

/-- Python `random.uniform(a, b) = a + (b - a) * random()`. -/
def pyuniform (a b : ℚ) (g : Rng) : ℚ × Rng :=
  let p := randRat g
  (a + (b - a) * p.1, p.2)

/-- `uuid.uuid4()`, modelled as an oracle draw. -/
def uuid4 (g : Rng) : Nat × Rng := randNat g

/-- Abstraction of `datetime.isoformat()` / `strftime` on an epoch-second
timestamp; claims never inspect the rendered text. -/
def isoformatTime (t : Int) : String := toString t

/-! ### Data model (`backend/models/scenario.py`) -/

/-- `ScenarioArtifact` dataclass.  Metadata dicts are association lists. -/
structure Artifact where
  id : Nat
  scenario_id : Nat
  type : String
  value : String
  is_malicious : Bool
  is_critical : Bool
  metadata : List (String × String)
  points : Int
deriving DecidableEq, Repr

/-- `ScenarioTimelineEvent` dataclass (fields the generator sets). -/
structure Event where
  id : Nat
  scenario_id : Nat
  timestamp : Int
  event_type : String
  description : String
  source_ip : Option String
  destination_ip : Option String
  source_port : Option Int
  destination_port : Option Int
  artifact_ids : List Nat
  priority : Int
  raw_log : Option String
deriving DecidableEq, Repr

/-- One entry of a template's `base_artifacts` list: a JSON dict read with
`.get(key, default)`, hence every field optional. -/
structure BaseArtifact where
  type : Option String
  value : Option String
  is_malicious : Option Bool
  is_critical : Option Bool
  metadata : Option (List (String × String))
  points : Option Int
deriving DecidableEq, Repr

/-- One entry of a template's `base_timeline` list (keys read by
`generate_timeline`). -/
structure BaseEvent where
  event_type : Option String
  description : Option String
  priority : Option Int
deriving DecidableEq, Repr

/-- `ScenarioTemplate`, restricted to the fields `generate_artifacts` and
`generate_timeline` consume. -/
structure ScenarioTemplate where
  base_timeline : List BaseEvent
  base_artifacts : List BaseArtifact
deriving DecidableEq, Repr

/-! ### Class-level constants of `ScenarioGeneratorService` -/

def MALICIOUS_IPS : List String :=
  ["185.220.101.42", "91.219.236.166", "45.227.254.12", "103.35.74.21",
   "212.83.178.156", "185.234.72.14", "89.248.168.212", "195.154.60.193",
   "91.207.174.23", "45.154.255.147"]

def BENIGN_IPS : List String :=
  ["8.8.8.8", "1.1.1.1", "208.67.222.222", "10.0.0.1", "192.168.1.1"]

def MALICIOUS_DOMAINS : List String :=
  ["malware-c2.badssl.com", "phishing-test.example.com", "brute-force.badssl.com",
   "scanner.badssl.com", "exfil-test.evil.com", "apt-c2.secure-apt.net"]

def TARGET_IPS : List String :=
  ["10.0.0.5", "10.0.0.10", "10.0.0.15", "192.168.1.100", "172.16.0.50"]

/-! ### `generate_artifacts` -/

/-- `_get_artifact_count_by_difficulty`: dict lookup with default 3. -/
def get_artifact_count_by_difficulty (difficulty : String) : Nat :=
  if difficulty == "beginner" then 3
  else if difficulty == "intermediate" then 5
  else if difficulty == "advanced" then 10
  else 3

/-- `_generate_artifact_value`: a malicious IP or a malicious domain. -/
def generate_artifact_value (g : Rng) : String × Rng :=
  let p := pyrandom g
  if p.1 < 1/2 then pychoice MALICIOUS_IPS "185.220.101.42" p.2
  else pychoice MALICIOUS_DOMAINS "malware-c2.badssl.com" p.2

/-- The base-artifact copying loop of `generate_artifacts`: one fresh
identity per template entry, all other fields via `.get` with defaults. -/
def genBaseArtifacts (sid : Nat) : List BaseArtifact → Rng → List Artifact × Rng
  | [], g => ([], g)
  | b :: rest, g =>
    let pid := uuid4 g
    let a : Artifact :=
      { id := pid.1, scenario_id := sid,
        type := b.type.getD "ip",
        value := b.value.getD "",
        is_malicious := b.is_malicious.getD false,
        is_critical := b.is_critical.getD false,
        metadata := b.metadata.getD [],
        points := b.points.getD 10 }
    let rest' := genBaseArtifacts sid rest pid.2
    (a :: rest'.1, rest'.2)

/-- One iteration of the additional-artifact loop: benign with probability
0.3, otherwise malicious.  Draw order follows Python argument evaluation:
the branch coin, then `uuid4`, then the branch's own draws. -/
def genOneAdditionalArtifact (sid : Nat) (g : Rng) : Artifact × Rng :=
  let pr := pyrandom g
  if pr.1 < 3/10 then
    let pid := uuid4 pr.2
    let pv := pychoice BENIGN_IPS "8.8.8.8" pid.2
    ({ id := pid.1, scenario_id := sid, type := "ip", value := pv.1,
       is_malicious := false, is_critical := false,
       metadata := [("type", "benign")], points := 5 }, pv.2)
  else
    let pid := uuid4 pr.2
    let pt := pychoice ["ip", "domain", "url"] "ip" pid.2
    let pv := generate_artifact_value pt.2
    let pc := pyrandom pv.2
    let pp := randint 10 25 pc.2
    ({ id := pid.1, scenario_id := sid, type := pt.1, value := pv.1,
       is_malicious := true, is_critical := pc.1 < 3/10,
       metadata := [("type", "malicious")], points := pp.1 }, pp.2)

def genAdditionalArtifacts (sid : Nat) : Nat → Rng → List Artifact × Rng
  | 0, g => ([], g)
  | n + 1, g =>
    let pa := genOneAdditionalArtifact sid g
    let rest := genAdditionalArtifacts sid n pa.2
    (pa.1 :: rest.1, rest.2)

/-- `ScenarioGeneratorService.generate_artifacts`. -/
def generate_artifacts (sid : Nat) (template : ScenarioTemplate)
    (difficulty : String) (g : Rng) : List Artifact × Rng :=
  let pb := genBaseArtifacts sid template.base_artifacts g
  let pe := genAdditionalArtifacts sid (get_artifact_count_by_difficulty difficulty) pb.2
  (pb.1 ++ pe.1, pe.2)

/-! ### `generate_timeline` -/

/-- `_get_port_by_event_type`: dict lookup with default 80. -/
def get_port_by_event_type (etype : String) : Int :=
  if etype == "network_scan" then 22
  else if etype == "connection_attempt" then 22
  else if etype == "authentication_failure" then 22
  else if etype == "authentication_success" then 22
  else if etype == "c2_beacon" then 53
  else if etype == "file_download" then 80
  else if etype == "data_exfiltration" then 443
  else 80

/-- `_generate_raw_log`.  Python builds the whole `log_formats` dict before
selecting one entry, so every entry's random draws are consumed on every
call, in dict order. -/
def generate_raw_log (etype src dst : String) (t : Int) (g : Rng) : String × Rng :=
  let p1 := randint 10000 65535 g
  let p2 := pychoice [(22 : Int), 80, 443, 8080] 22 p1.2
  let p3 := randint 10000 65535 p2.2
  let p4 := pychoice ["root", "admin", "ubuntu", "administrator", "user"] "root" p3.2
  let p5 := pychoice ["root", "admin", "ubuntu"] "root" p4.2
  let p6 := pychoice ["malware.bin", "payload.exe", "backdoor.sh"] "malware.bin" p5.2
  let s :=
    if etype == "network_scan" then
      isoformatTime t ++ "Z DENY TCP " ++ src ++ ":" ++ toString p1.1 ++ " -> " ++ dst ++ ":" ++ toString p2.1
    else if etype == "connection_attempt" then
      isoformatTime t ++ "Z DENY TCP " ++ src ++ ":" ++ toString p3.1 ++ " -> " ++ dst ++ ":22"
    else if etype == "authentication_failure" then
      isoformatTime t ++ "Z FAILED Password for " ++ p4.1 ++ " from " ++ src
    else if etype == "authentication_success" then
      isoformatTime t ++ "Z ACCEPT Password for " ++ p5.1 ++ " from " ++ src
    else if etype == "c2_beacon" then
      isoformatTime t ++ "Z QUERY A malware-c2.badssl.com -> " ++ src
    else if etype == "file_download" then
      isoformatTime t ++ "Z DOWNLOAD /tmp/" ++ p6.1 ++ " from " ++ src
    else
      isoformatTime t ++ "Z " ++ etype.toUpper ++ " from " ++ src
  (s, p6.2)

/-- The difficulty adjustment applied to each base event's priority. -/
def adjustPriority (difficulty : String) (p : Int) : Int :=
  if difficulty == "beginner" then min (p + 1) 3
  else if difficulty == "advanced" then max (p - 1) 1
  else p

/-- The base-event loop of `generate_timeline`.  `i` is the running index
(`enumerate`); draw order per event: raw-log draws, `uuid4`, source port. -/
def genBaseEvents (sid : Nat) (artifacts : List Artifact) (difficulty : String)
    (malicious_ips : List String) (target_ip : String) (base_ts : Int) :
    List BaseEvent → Nat → Rng → List Event × Rng
  | [], _, g => ([], g)
  | b :: rest, i, g =>
    let event_time := base_ts + 300 * (i : Int)
    let src := malicious_ips.headD "185.220.101.42"
    let pr := generate_raw_log (b.event_type.getD "other") src target_ip event_time g
    let pid := uuid4 pr.2
    let psp := randint 10000 65535 pid.2
    let ev : Event :=
      { id := pid.1, scenario_id := sid, timestamp := event_time,
        event_type := b.event_type.getD "other",
        description := b.description.getD "",
        source_ip := if malicious_ips.isEmpty then none else some src,
        destination_ip := some target_ip,
        source_port := some psp.1,
        destination_port := some (get_port_by_event_type (b.event_type.getD "")),
        artifact_ids := (artifacts.filter fun a => malicious_ips.contains a.value).map (·.id),
        priority := adjustPriority difficulty (b.priority.getD 2),
        raw_log := some pr.1 }
    let rest' := genBaseEvents sid artifacts difficulty malicious_ips target_ip base_ts rest (i + 1) psp.2
    (ev :: rest'.1, rest'.2)

/-- One noise event of `_generate_noise_events`; draw order follows the
source: the minute offset, then `uuid4`, event type, source IP, port. -/
def genOneNoiseEvent (sid : Nat) (target_ip : String) (base_ts : Int)
    (base_event_count : Nat) (g : Rng) : Event × Rng :=
  let pm := randint 0 ((base_event_count : Int) * 5 + 30) g
  let event_time := base_ts + 60 * pm.1
  let pid := uuid4 pm.2
  let pet := pychoice ["connection_attempt", "network_scan", "other"] "connection_attempt" pid.2
  let psi := pychoice BENIGN_IPS "8.8.8.8" pet.2
  let pdp := pychoice [(53 : Int), 80, 443] 53 psi.2
  ({ id := pid.1, scenario_id := sid, timestamp := event_time,
     event_type := pet.1, description := "Noise event - benign activity",
     source_ip := some psi.1, destination_ip := some target_ip,
     source_port := none, destination_port := some pdp.1,
     artifact_ids := [], priority := 1,
     raw_log := some (isoformatTime event_time ++ "Z BENIGN traffic from benign IP") }, pdp.2)

def genNoiseLoop (sid : Nat) (target_ip : String) (base_ts : Int)
    (base_event_count : Nat) : Nat → Rng → List Event × Rng
  | 0, g => ([], g)
  | n + 1, g =>
    let pe := genOneNoiseEvent sid target_ip base_ts base_event_count g
    let rest := genNoiseLoop sid target_ip base_ts base_event_count n pe.2
    (pe.1 :: rest.1, rest.2)

/-- `_generate_noise_events`: `randint(3, 8)` noise events. -/
def generate_noise_events (sid : Nat) (target_ip : String) (base_ts : Int)
    (base_event_count : Nat) (g : Rng) : List Event × Rng :=
  let pc := randint 3 8 g
  genNoiseLoop sid target_ip base_ts base_event_count pc.1.toNat pc.2

/-- The body of `generate_timeline` before the final sort: the base events
and (for intermediate/advanced only) the noise events. -/
def timelineParts (sid : Nat) (template : ScenarioTemplate)
    (artifacts : List Artifact) (difficulty : String) (now : Int) (g : Rng) :
    List Event × List Event × Rng :=
  let malIps0 := (artifacts.filter fun a => a.type == "ip" && a.is_malicious).map (·.value)
  let pt := pychoice TARGET_IPS "10.0.0.5" g
  let malicious_ips := if malIps0.isEmpty then MALICIOUS_IPS.take 1 else malIps0
  let base_ts := now - 7200
  let pb :=
    genBaseEvents sid artifacts difficulty malicious_ips pt.1 base_ts template.base_timeline 0 pt.2
  if difficulty == "intermediate" || difficulty == "advanced" then
    let pn := generate_noise_events sid pt.1 base_ts template.base_timeline.length pb.2
    (pb.1, pn.1, pn.2)
  else
    (pb.1, [], pb.2)

/-- Timestamp comparison used for the final `events.sort(key=timestamp)`. -/
def eventLe (a b : Event) : Bool := decide (a.timestamp ≤ b.timestamp)

/-- `ScenarioGeneratorService.generate_timeline`: base events plus noise
(intermediate/advanced), sorted by timestamp. -/
def generate_timeline (sid : Nat) (template : ScenarioTemplate)
    (artifacts : List Artifact) (difficulty : String) (now : Int) (g : Rng) :
    List Event × Rng :=
  let p := timelineParts sid template artifacts difficulty now g
  ((p.1 ++ p.2.1).mergeSort eventLe, p.2.2)

/-! ### IP parsing (`ipaddress.ip_address` on IPv4 strings)

The enrichment service parses inputs with `ipaddress.ip_address` and
catches `ValueError`.  We model the IPv4 grammar (four dot-separated
decimal octets, 0–255, no leading zeros); any other string — including
IPv6 text, which no claim exercises — is modelled as unparsable. -/

def parseOctet (s : List Char) : Option Nat :=
  if s.length = 0 || 3 < s.length then none
  else if !(s.all Char.isDigit) then none
  else if 1 < s.length && s.headD '0' = '0' then none
  else
    let n := s.foldl (fun acc c => acc * 10 + (c.toNat - 48)) 0
    if n ≤ 255 then some n else none

/-- Split a character list on `'.'` (Python `str.split('.')` semantics). -/
def splitDots : List Char → List (List Char)
  | [] => [[]]
  | c :: rest =>
    let r := splitDots rest
    if c = '.' then [] :: r
    else (c :: r.headD []) :: r.tail

/-- An IPv4 dotted quad as a 32-bit number, `none` on `ValueError`. -/
def ipToNat (ip : String) : Option Nat :=
  match (splitDots ip.toList).mapM parseOctet with
  | some [a, b, c, d] => some (((a * 256 + b) * 256 + c) * 256 + d)
  | _ => none

def ipv4 (a b c d : Nat) : Nat := ((a * 256 + b) * 256 + c) * 256 + d

/-- CPython's IPv4 private networks (`IPv4Address.is_private`). -/
def PRIVATE_NETWORKS : List (Nat × Nat) :=
  [(ipv4 0 0 0 0, 8), (ipv4 10 0 0 0, 8), (ipv4 127 0 0 0, 8),
   (ipv4 169 254 0 0, 16), (ipv4 172 16 0 0, 12), (ipv4 192 0 0 0, 29),
   (ipv4 192 0 0 170, 31), (ipv4 192 0 2 0, 24), (ipv4 192 168 0 0, 16),
   (ipv4 198 18 0 0, 15), (ipv4 198 51 100 0, 24), (ipv4 203 0 113 0, 24),
   (ipv4 240 0 0 0, 4), (ipv4 255 255 255 255, 32)]

def isPrivateNat (n : Nat) : Bool :=
  PRIVATE_NETWORKS.any fun p => n / 2 ^ (32 - p.2) = p.1 / 2 ^ (32 - p.2)

/-- `ip_address(ip).is_private`, with `ValueError` mapped to `false` (every
caller catches the error and proceeds on the non-private path). -/
def isPrivateIp (ip : String) : Bool :=
  match ipToNat ip with
  | some n => isPrivateNat n
  | none => false

/-! ### Class-level constants of `InvestigationToolsService` -/

/-- `COUNTRIES` dict entry: name, code, latitude, longitude. -/
structure Country where
  name : String
  code : String
  latitude : ℚ
  longitude : ℚ
deriving DecidableEq, Repr

/-- `list(COUNTRIES.keys())` in insertion order. -/
def COUNTRY_CODES : List String :=
  ["DE", "US", "RU", "CN", "BR", "NL", "FR", "UA", "KR", "JP"]

def COUNTRIES (code : String) : Country :=
  if code = "DE" then ⟨"Germany", "DE", 511657/10000, 104515/10000⟩
  else if code = "US" then ⟨"United States", "US", 370902/10000, -957129/10000⟩
  else if code = "RU" then ⟨"Russia", "RU", 615240/10000, 1053188/10000⟩
  else if code = "CN" then ⟨"China", "CN", 358617/10000, 1041954/10000⟩
  else if code = "BR" then ⟨"Brazil", "BR", -142350/10000, -519253/10000⟩
  else if code = "NL" then ⟨"Netherlands", "NL", 521326/10000, 52913/10000⟩
  else if code = "FR" then ⟨"France", "FR", 462276/10000, 22137/10000⟩
  else if code = "UA" then ⟨"Ukraine", "UA", 483794/10000, 311656/10000⟩
  else if code = "KR" then ⟨"South Korea", "KR", 359078/10000, 1277669/10000⟩
  else ⟨"Japan", "JP", 362048/10000, 1382529/10000⟩

/-- `ISP_DATA.get(ip)`: (isp, asn, org). -/
def ISP_DATA (ip : String) : Option (String × String × String) :=
  if ip = "185.220.101.42" then some ("Tor Exit Node", "AS60068", "DataWire Inc")
  else if ip = "91.219.236.166" then some ("Global Layer", "AS49453", "Global Layer LLC")
  else if ip = "45.227.254.12" then some (".host", "AS202425", "IP Volume inc")
  else if ip = "8.8.8.8" then some ("Google LLC", "AS15169", "Google LLC")
  else if ip = "1.1.1.1" then some ("Cloudflare, Inc.", "AS13335", "Cloudflare, Inc.")
  else none

/-- `MALICIOUS_IP_RANGES`: inclusive (start, end) address-string pairs. -/
def MALICIOUS_IP_RANGES : List (String × String) :=
  [("185.220.0.0", "185.220.255.255"),
   ("91.219.0.0", "91.219.255.255"),
   ("45.227.0.0", "45.227.255.255")]

/-- `_is_known_malicious_ip`: range membership only.  (`ValueError` on the
input yields `false`; the range-bound constants always parse.) -/
def is_known_malicious_ip (ip : String) : Bool :=
  match ipToNat ip with
  | none => false
  | some n =>
    MALICIOUS_IP_RANGES.any fun se =>
      match ipToNat se.1, ipToNat se.2 with
      | some s, some e => decide (s ≤ n) && decide (n ≤ e)
      | _, _ => false

/-! ### Substring test (Python `word in domain.lower()`) -/

def charsBegin : List Char → List Char → Bool
  | [], _ => true
  | _ :: _, [] => false
  | a :: as, b :: bs => a == b && charsBegin as bs

def charsContain (needle : List Char) : List Char → Bool
  | [] => charsBegin needle []
  | b :: bs => charsBegin needle (b :: bs) || charsContain needle bs

/-- Python `needle in hay` on strings. -/
def strContains (hay needle : String) : Bool :=
  charsContain needle.toList hay.toList

/-- `word in domain.lower()` (the inputs here are ASCII, where
`Char.toLower` agrees with Python's `str.lower`). -/
def containsWord (domain word : String) : Bool :=
  charsContain word.toList (domain.toList.map Char.toLower)

/-! ### Enrichment payloads -/

/-- The geolocation result dict.  The private-address payload omits the
abuse fields (`none`). -/
structure GeoData where
  ip : String
  country_code : String
  country_name : String
  city : String
  latitude : ℚ
  longitude : ℚ
  isp : String
  as_number : String
  as_name : String
  is_private : Bool
  is_malicious : Bool
  usage_type : String
  threat_level : String
  abuse_confidence_score : Option Int
  total_reports : Option Int
  last_reported : Option String
deriving DecidableEq, Repr

/-- The WHOIS result dict.  Canned `WHOIS_DATA` records lack
`is_suspicious`/`threat_indicators` (hence `Option`); the first canned
record's registrant-country key is misspelled with a leading space in the
source, so its `registrant_country` is absent. -/
structure WhoisData where
  domain : String
  registrar : String
  created_date : String
  expires_date : String
  nameservers : List String
  whois_server : String
  status : String
  registrant_country : Option String
  admin_country : String
  tech_country : String
  is_suspicious : Option Bool
  threat_indicators : Option (List String)
deriving DecidableEq, Repr

/-- One passive-DNS record dict. -/
structure DnsRecord where
  type : String
  value : String
  priority : Option Int
  first_seen : Option String
  last_seen : Option String
deriving DecidableEq, Repr

structure PdnsData where
  domain : String
  records : List DnsRecord
  total_records : Nat
  is_suspicious : Bool
  threat_indicators : List String
deriving DecidableEq, Repr

/-- The Shodan result dict; the private-address payload has only
`ip`/`error`/`is_private`. -/
structure ShodanData where
  ip : String
  error : Option String
  is_private : Option Bool
  ports : List Int
  hostnames : List String
  country : Option String
  org : Option String
  os : Option String
  vulnerabilities : List String
  vuln_count : Option Nat
  last_update : Option String
  is_malicious : Option Bool
  threat_score : Option Int
deriving DecidableEq, Repr

/-- A cached `result_data` JSON value, by originating tool shape.  The
reverse-DNS tool caches the one-key dict `{'hostname': h}`. -/
inductive Payload
  | geo (d : GeoData)
  | whois (d : WhoisData)
  | pdns (d : PdnsData)
  | rdns (hostname : String)
  | shodan (d : ShodanData)
deriving DecidableEq, Repr

/-! ### Generators -/

/-- `_get_usage_type`. -/
def get_usage_type (is_malicious : Bool) (g : Rng) : String × Rng :=
  if is_malicious then pychoice ["VPN/Tor", "Hosting", "ISP", "Data Center"] "VPN/Tor" g
  else pychoice ["Commercial", "Residential", "Educational", "Government"] "Commercial" g

def cityOf (code : String) : String :=
  if code = "DE" then "Frankfurt"
  else if code = "US" then "New York"
  else if code = "RU" then "Moscow"
  else if code = "CN" then "Beijing"
  else if code = "BR" then "São Paulo"
  else if code = "NL" then "Amsterdam"
  else if code = "FR" then "Paris"
  else if code = "UA" then "Kyiv"
  else if code = "KR" then "Seoul"
  else if code = "JP" then "Tokyo"
  else "Unknown City"

/-- `_generate_geolocation`.  `pyhash` is Python's process-stable `hash`
on strings; draw order follows dict-literal evaluation: latitude jitter,
longitude jitter, usage-type choice, abuse score, report count,
last-reported day offset. -/
def generate_geolocation (pyhash : String → Int) (now : Int) (ip : String)
    (g : Rng) : GeoData × Rng :=
  if isPrivateIp ip then
    ({ ip := ip, country_code := "XX", country_name := "Private Network",
       city := "Internal Network", latitude := 0, longitude := 0,
       isp := "Internal", as_number := "Private", as_name := "Private Network",
       is_private := true, is_malicious := false, usage_type := "Internal",
       threat_level := "none", abuse_confidence_score := none,
       total_reports := none, last_reported := none }, g)
  else
    let is_mal := is_known_malicious_ip ip
    let h := pyhash ip
    let code := COUNTRY_CODES.getD (h.emod 10).toNat "DE"
    let country := COUNTRIES code
    let ispInfo := (ISP_DATA ip).getD
      ("ISP " ++ toString (h.emod 1000),
       "AS" ++ toString (h.natAbs % 100000),
       "Organization " ++ toString (h.natAbs % 100))
    let pla := pyuniform (-2) 2 g
    let plo := pyuniform (-2) 2 pla.2
    let pu := get_usage_type is_mal plo.2
    let pab := if is_mal then randint 50 100 pu.2 else randint 0 30 pu.2
    let ptr := if is_mal then randint 10 500 pab.2 else randint 0 10 pab.2
    let pdy := randint 0 30 ptr.2
    ({ ip := ip, country_code := country.code, country_name := country.name,
       city := cityOf country.code,
       latitude := country.latitude + pla.1, longitude := country.longitude + plo.1,
       isp := ispInfo.1, as_number := ispInfo.2.1, as_name := ispInfo.2.2,
       is_private := false, is_malicious := is_mal,
       usage_type := pu.1,
       threat_level := if is_mal then "high" else "low",
       abuse_confidence_score := some pab.1,
       total_reports := some ptr.1,
       last_reported := some (isoformatTime (now - 86400 * pdy.1)) }, pdy.2)

/-- `WHOIS_DATA` canned records. -/
def whoisCanned (domain : String) : Option WhoisData :=
  if domain = "malware-c2.badssl.com" then
    some { domain := "malware-c2.badssl.com", registrar := "NameCheap, Inc.",
           created_date := "2024-01-15", expires_date := "2025-01-15",
           nameservers := ["ns1.cloudprovider.com", "ns2.cloudprovider.com", "ns3.cloudprovider.com"],
           whois_server := "whois.namecheap.com", status := "clientTransferProhibited",
           registrant_country := none, admin_country := "RU", tech_country := "RU",
           is_suspicious := none, threat_indicators := none }
  else if domain = "phishing-test.example.com" then
    some { domain := "phishing-test.example.com", registrar := "GoDaddy.com, LLC",
           created_date := "2023-06-20", expires_date := "2025-06-20",
           nameservers := ["ns1.example-dns.com", "ns2.example-dns.com"],
           whois_server := "whois.godaddy.com", status := "ok",
           registrant_country := some "CN", admin_country := "CN", tech_country := "CN",
           is_suspicious := none, threat_indicators := none }
  else none

/-- The WHOIS keyword rule (7 keywords, including `secure`). -/
def whoisSuspicious (domain : String) : Bool :=
  ["malware", "c2", "phishing", "evil", "bad", "test", "secure"].any
    (containsWord domain)

/-- `_get_threat_indicators`. -/
def get_threat_indicators (domain : String) : List String :=
  let l :=
    (if containsWord domain "c2" then ["Domain associated with C2 infrastructure"] else [])
    ++ (if containsWord domain "phish" then ["Domain associated with phishing campaigns"] else [])
    ++ (if containsWord domain "malware" then ["Domain associated with malware distribution"] else [])
    ++ (if containsWord domain "test" then ["Test domain - potentially used for malicious testing"] else [])
  if l.isEmpty then ["Domain pattern matches known malicious domains"] else l

/-- `_generate_whois`.  Draw order: created-days, expires-days, registrar
choice, two nameserver-label choices, three country choices. -/
def generate_whois (now : Int) (domain : String) (g : Rng) : WhoisData × Rng :=
  match whoisCanned domain with
  | some d => (d, g)
  | none =>
    let is_susp := whoisSuspicious domain
    let pcd := randint 30 730 g
    let ped := randint 365 730 pcd.2
    let preg := pychoice ["NameCheap, Inc.", "GoDaddy.com, LLC", "Tucows Domains Inc.",
                          "Domain.com, LLC", "Name.com, Inc."] "NameCheap, Inc." ped.2
    let pn1 := pychoice ["cloud", "dns", "net", "host"] "cloud" preg.2
    let pn2 := pychoice ["cloud", "dns", "net", "host"] "cloud" pn1.2
    let prc := pychoice ["US", "CN", "RU", "BR", "NL", "DE", "UA"] "US" pn2.2
    let pac := pychoice ["US", "CN", "RU", "BR", "NL", "DE", "UA"] "US" prc.2
    let ptc := pychoice ["US", "CN", "RU", "BR", "NL", "DE", "UA"] "US" pac.2
    ({ domain := domain, registrar := preg.1,
       created_date := isoformatTime (now - 86400 * pcd.1),
       expires_date := isoformatTime (now + 86400 * ped.1),
       nameservers := ["ns1." ++ pn1.1 ++ "provider.com", "ns2." ++ pn2.1 ++ "provider.com"],
       whois_server := "whois.registrar.com",
       status := if is_susp then "clientTransferProhibited" else "ok",
       registrant_country := some prc.1, admin_country := pac.1, tech_country := ptc.1,
       is_suspicious := some is_susp,
       threat_indicators := some (if is_susp then get_threat_indicators domain else []) }, ptc.2)

/-- The passive-DNS keyword rule — 6 keywords, without `secure`. -/
def pdnsSuspicious (domain : String) : Bool :=
  ["malware", "c2", "phishing", "evil", "bad", "test"].any (containsWord domain)

/-- The A/AAAA-record loop bodies: two day-offset draws per record. -/
def genAddressRecords (ty : String) (now : Int) : List String → Rng → List DnsRecord × Rng
  | [], g => ([], g)
  | ip :: rest, g =>
    let pf := randint 30 365 g
    let pl := randint 0 7 pf.2
    let rest' := genAddressRecords ty now rest pl.2
    ({ type := ty, value := ip, priority := none,
       first_seen := some (isoformatTime (now - 86400 * pf.1)),
       last_seen := some (isoformatTime (now - 86400 * pl.1)) } :: rest'.1, rest'.2)

/-- MX-record loop: first-seen draw, then priority draw. -/
def genMxRecords (now : Int) : List String → Rng → List DnsRecord × Rng
  | [], g => ([], g)
  | host :: rest, g =>
    let pf := randint 30 365 g
    let pp := randint 10 50 pf.2
    let rest' := genMxRecords now rest pp.2
    ({ type := "MX", value := host, priority := some pp.1,
       first_seen := some (isoformatTime (now - 86400 * pf.1)),
       last_seen := none } :: rest'.1, rest'.2)

/-- NS/TXT-record loop: one first-seen draw per record. -/
def genSimpleRecords (ty : String) (now : Int) : List String → Rng → List DnsRecord × Rng
  | [], g => ([], g)
  | v :: rest, g =>
    let pf := randint 30 365 g
    let rest' := genSimpleRecords ty now rest pf.2
    ({ type := ty, value := v, priority := none,
       first_seen := some (isoformatTime (now - 86400 * pf.1)),
       last_seen := none } :: rest'.1, rest'.2)

/-- `_get_pdns_threat_indicators`. -/
def get_pdns_threat_indicators (records : List DnsRecord) : List String :=
  let l := records.foldr (fun r acc =>
    (if r.type == "A" &&
        (strContains r.value "185.220" || strContains r.value "91.219" ||
         strContains r.value "45.227") then
      ["A record points to known malicious IP: " ++ r.value] else [])
    ++ (if r.type == "TXT" && strContains r.value "-all" then
      ["SPF record rejects all email (potential phishing)"] else [])
    ++ acc) []
  if l.isEmpty then ["DNS records match patterns of malicious infrastructure"] else l

/-- `_generate_pdns`. -/
def generate_pdns (now : Int) (domain : String) (g : Rng) : PdnsData × Rng :=
  let is_susp := pdnsSuspicious domain
  let a_ips := if is_susp then ["185.220.101.42", "91.219.236.166", "45.227.254.12"]
               else ["8.8.8.8", "1.1.1.1", "208.67.222.222"]
  let pk := randint 1 3 g
  let pa := genAddressRecords "A" now (a_ips.take pk.1.toNat) pk.2
  let p4 := if is_susp then ([], pa.2)
            else genAddressRecords "AAAA" now (["2001:db8::1", "2001:db8::2"].take 1) pa.2
  let pmk := randint 1 2 p4.2
  let pm := genMxRecords now ((["mail." ++ domain, "smtp." ++ domain, "mail.google.com"]).take pmk.1.toNat) pmk.2
  let pn := genSimpleRecords "NS" now ["ns1." ++ domain, "ns2." ++ domain] pm.2
  let ptx := genSimpleRecords "TXT" now
    (["v=spf1 include:_spf.google.com ~all"] ++ (if is_susp then ["v=spf1 -all"] else [])) pn.2
  let records := pa.1 ++ p4.1 ++ pm.1 ++ pn.1 ++ ptx.1
  ({ domain := domain, records := records, total_records := records.length,
     is_suspicious := is_susp,
     threat_indicators := if is_susp then get_pdns_threat_indicators records else [] }, ptx.2)

/-- `ip.startswith(pre)`. -/
def strStarts (ip pre : String) : Bool :=
  charsBegin pre.toList ip.toList

/-- `_generate_reverse_dns` (deterministic).  `ip.split('.')[2]` becomes
`splitDots`-indexing and `ip.replace('.', '-')` a character map. -/
def generate_reverse_dns (ip : String) : Option String :=
  if isPrivateIp ip then none
  else if strStarts ip "185.220." then
    some ("tor-exit-" ++ String.mk ((splitDots ip.toList).getD 2 []) ++ ".torproxy.net")
  else if strStarts ip "8.8." then some "dns.google"
  else if strStarts ip "1.1." then some "one.one.one.one"
  else some (String.mk (ip.toList.map fun c => if c = '.' then '-' else c) ++ ".unknown.domain")

/-- `_get_country_by_ip`. -/
def get_country_by_ip (pyhash : String → Int) (ip : String) : String :=
  (COUNTRIES (COUNTRY_CODES.getD ((pyhash ip).emod 10).toNat "DE")).code

/-- `_generate_shodan`.  Draw order: four service coins, the vulnerability
coin, the OS-version choice, the threat-score randint. -/
def generate_shodan (pyhash : String → Int) (now : Int) (ip : String)
    (g : Rng) : ShodanData × Rng :=
  if isPrivateIp ip then
    ({ ip := ip, error := some "Private IP - no Shodan data available",
       is_private := some true, ports := [], hostnames := [], country := none,
       org := none, os := none, vulnerabilities := [], vuln_count := none,
       last_update := none, is_malicious := none, threat_score := none }, g)
  else
    let p1 := pyrandom g
    let p2 := pyrandom p1.2
    let p3 := pyrandom p2.2
    let p4 := pyrandom p3.2
    let ports := (if p1.1 > 3/10 then [(22 : Int)] else [])
      ++ (if p2.1 > 4/10 then [(80 : Int)] else [])
      ++ (if p3.1 > 8/10 then [(23 : Int)] else [])
      ++ (if p4.1 > 7/10 then [(21 : Int)] else [])
    let pv := pyrandom p4.2
    let vulns := if pv.1 > 7/10 then ["CVE-2024-1234", "CVE-2023-5678"] else []
    let pos := pychoice [(3 : Int), 4, 5] 3 pv.2
    let is_mal := is_known_malicious_ip ip
    let pts := if is_mal then randint 50 100 pos.2 else randint 0 30 pos.2
    ({ ip := ip, error := none, is_private := none, ports := ports,
       hostnames := match generate_reverse_dns ip with
                    | some h => [h]
                    | none => [],
       country := some (get_country_by_ip pyhash ip),
       org := some (((ISP_DATA ip).map (·.2.2)).getD "Unknown"),
       os := some ("Linux " ++ toString pos.1 ++ ".x"),
       vulnerabilities := vulns, vuln_count := some vulns.length,
       last_update := some (isoformatTime now),
       is_malicious := some is_mal,
       threat_score := some pts.1 }, pts.2)

/-! ### Cache and cached lookups -/

/-- The `enriched_data_cache` store behind `self.db`.  `kv` maps the
composite `(query_type, query_value)` key to `(result_data, expires_at)`;
`readOk`/`writeOk` model whether the store raises on the respective
statement (exceptions are caught by the service). -/
structure Store where
  kv : String × String → Option (Payload × Int)
  readOk : Bool
  writeOk : Bool

/-- `self.cache_duration = timedelta(hours=24)` in seconds. -/
def CACHE_DURATION : Int := 86400

/-- `_get_cached_data`: no session or a raising read yields `None`
(exception caught); a present record is returned only while
`expires_at > NOW()`. -/
def get_cached_data (db : Option Store) (now : Int) (qt qv : String) :
    Option Payload :=
  match db with
  | none => none
  | some s =>
    if s.readOk then
      match s.kv (qt, qv) with
      | some pe => if now < pe.2 then some pe.1 else none
      | none => none
    else none

/-- `_cache_data`: best-effort upsert with `expires = now + 24h`; a raising
write leaves the store unchanged (exception caught). -/
def cache_data (db : Option Store) (now : Int) (qt qv : String) (p : Payload) :
    Option Store :=
  match db with
  | none => none
  | some s =>
    if s.writeOk then
      some { s with kv := fun k => if k = (qt, qv) then some (p, now + CACHE_DURATION) else s.kv k }
    else some s

/-- `geolocation_lookup`: cache check, generate, best-effort cache write. -/
def geolocation_lookup (pyhash : String → Int) (db : Option Store) (now : Int)
    (ip : String) (g : Rng) : Payload × Option Store × Rng :=
  match get_cached_data db now "geolocation" ip with
  | some c => (c, db, g)
  | none =>
    let pd := generate_geolocation pyhash now ip g
    (Payload.geo pd.1, cache_data db now "geolocation" ip (Payload.geo pd.1), pd.2)

def whois_lookup (db : Option Store) (now : Int) (domain : String) (g : Rng) :
    Payload × Option Store × Rng :=
  match get_cached_data db now "whois" domain with
  | some c => (c, db, g)
  | none =>
    let pd := generate_whois now domain g
    (Payload.whois pd.1, cache_data db now "whois" domain (Payload.whois pd.1), pd.2)

def pdns_lookup (db : Option Store) (now : Int) (domain : String) (g : Rng) :
    Payload × Option Store × Rng :=
  match get_cached_data db now "pdns" domain with
  | some c => (c, db, g)
  | none =>
    let pd := generate_pdns now domain g
    (Payload.pdns pd.1, cache_data db now "pdns" domain (Payload.pdns pd.1), pd.2)

/-- `reverse_dns_lookup` returns `cached.get('hostname')` on a hit (a
wrongly-shaped cached dict yields `None`) and caches only a non-`None`
generated hostname. -/
def reverse_dns_lookup (db : Option Store) (now : Int) (ip : String) (g : Rng) :
    Option String × Option Store × Rng :=
  match get_cached_data db now "reverse_dns" ip with
  | some (Payload.rdns h) => (some h, db, g)
  | some _ => (none, db, g)
  | none =>
    match generate_reverse_dns ip with
    | some h => (some h, cache_data db now "reverse_dns" ip (Payload.rdns h), g)
    | none => (none, db, g)

def shodan_lookup (pyhash : String → Int) (db : Option Store) (now : Int)
    (ip : String) (g : Rng) : Payload × Option Store × Rng :=
  match get_cached_data db now "shodan" ip with
  | some c => (c, db, g)
  | none =>
    let pd := generate_shodan pyhash now ip g
    (Payload.shodan pd.1, cache_data db now "shodan" ip (Payload.shodan pd.1), pd.2)

/-! ### Bool-valued sortedness (for claim statements) -/

def sortedByTimestamp : List Event → Bool
  | [] => true
  | [_] => true
  | a :: b :: rest => eventLe a b && sortedByTimestamp (b :: rest)

/-! ### Concrete fixtures used by counterexamples and witnesses -/

def rngZero : Rng := ⟨fun _ => 0, fun _ => 0, 0, 0⟩

def rngOne : Rng := ⟨fun _ => 1, fun _ => 0, 0, 0⟩

def hashZero : String → Int := fun _ => 0

/-- A template whose single base artifact supplies no `value` key. -/
def tmplNoValue : ScenarioTemplate :=
  ⟨[], [⟨none, none, none, none, none, none⟩]⟩

/-- A one-event, one-artifact template with every field supplied. -/
def tmplSmall : ScenarioTemplate :=
  ⟨[⟨some "network_scan", some "scan", some 1⟩],
   [⟨some "ip", some "185.220.101.42", some true, some true, some [], some 10⟩]⟩

/-- An empty working cache store. -/
def storeEmpty : Store := ⟨fun _ => none, true, true⟩

/-- A fixed geolocation payload used as cached data in witnesses. -/
def geoFixture : GeoData :=
  ⟨"8.8.8.8", "US", "United States", "New York", 0, 0, "Google LLC", "AS15169",
   "Google LLC", false, false, "Commercial", "low", none, none, none⟩

/-- A working store holding one geolocation record that expires at time 5. -/
def storeOneGeo (d : GeoData) : Store :=
  ⟨fun k => if k = ("geolocation", "8.8.8.8") then some (Payload.geo d, 5) else none,
   true, true⟩

/-- A store whose reads raise. -/
def storeReadFails : Store := ⟨fun _ => none, false, true⟩

/-! ## Supporting lemmas -/

theorem pychoice_mem {α : Type} (l : List α) (d : α) (g : Rng) (h : l ≠ []) :
    (pychoice l d g).1 ∈ l := by
  have hlen : 0 < l.length := List.length_pos.mpr h
  have hm : (randNat g).1 % l.length < l.length := Nat.mod_lt _ hlen
  unfold pychoice
  simp only
  rw [List.getD_eq_getElem l d hm]
  exact List.getElem_mem hm

theorem genBaseEvents_map_priority (sid : Nat) (arts : List Artifact)
    (difficulty : String) (mips : List String) (tip : String) (ts : Int) :
    ∀ (l : List BaseEvent) (i : Nat) (g : Rng),
      ((genBaseEvents sid arts difficulty mips tip ts l i g).1).map (·.priority)
        = l.map (fun b => adjustPriority difficulty (b.priority.getD 2)) := by
  intro l
  induction l with
  | nil => intro i g; simp [genBaseEvents]
  | cons b rest ih => intro i g; simp [genBaseEvents, ih]

theorem genBaseEvents_artifact_ids (sid : Nat) (arts : List Artifact)
    (difficulty : String) (mips : List String) (tip : String) (ts : Int) :
    ∀ (l : List BaseEvent) (i : Nat) (g : Rng),
      ∀ e ∈ (genBaseEvents sid arts difficulty mips tip ts l i g).1,
        e.artifact_ids = (arts.filter fun a => mips.contains a.value).map (·.id) := by
  intro l
  induction l with
  | nil => intro i g e he; simp [genBaseEvents] at he
  | cons b rest ih =>
    intro i g e he
    simp only [genBaseEvents, List.mem_cons] at he
    rcases he with he | he
    · subst he; rfl
    · exact ih _ _ e he

theorem genNoiseLoop_artifact_ids (sid : Nat) (tip : String) (ts : Int) (n : Nat) :
    ∀ (k : Nat) (g : Rng), ∀ e ∈ (genNoiseLoop sid tip ts n k g).1,
      e.artifact_ids = [] := by
  intro k
  induction k with
  | zero => intro g e he; simp [genNoiseLoop] at he
  | succ k ih =>
    intro g e he
    simp only [genNoiseLoop, List.mem_cons] at he
    rcases he with he | he
    · subst he; simp [genOneNoiseEvent]
    · exact ih _ e he

theorem timelineParts_artifact_ids (sid : Nat) (template : ScenarioTemplate)
    (arts : List Artifact) (difficulty : String) (now : Int) (g : Rng) :
    ∀ e ∈ (timelineParts sid template arts difficulty now g).1
            ++ (timelineParts sid template arts difficulty now g).2.1,
      ∀ aid ∈ e.artifact_ids, ∃ a ∈ arts, aid = a.id := by
  intro e he aid haid
  unfold timelineParts at he
  simp only at he
  by_cases hC : (difficulty == "intermediate" || difficulty == "advanced") = true
  · simp only [if_pos hC, List.mem_append] at he
    rcases he with he | he
    · have := genBaseEvents_artifact_ids sid arts difficulty _ _ _ _ _ _ e he
      rw [this] at haid
      obtain ⟨a, ha, rfl⟩ := List.mem_map.mp haid
      exact ⟨a, (List.mem_filter.mp ha).1, rfl⟩
    · unfold generate_noise_events at he
      simp only at he
      have := genNoiseLoop_artifact_ids sid _ _ _ _ _ e he
      rw [this] at haid
      simp at haid
  · simp only [if_neg hC, List.mem_append] at he
    rcases he with he | he
    · have := genBaseEvents_artifact_ids sid arts difficulty _ _ _ _ _ _ e he
      rw [this] at haid
      obtain ⟨a, ha, rfl⟩ := List.mem_map.mp haid
      exact ⟨a, (List.mem_filter.mp ha).1, rfl⟩
    · simp at he

theorem timelineParts_map_priority (sid : Nat) (template : ScenarioTemplate)
    (arts : List Artifact) (difficulty : String) (now : Int) (g : Rng) :
    ((timelineParts sid template arts difficulty now g).1.map (·.priority))
      = template.base_timeline.map (fun b => adjustPriority difficulty (b.priority.getD 2)) := by
  unfold timelineParts
  simp only
  by_cases hC : (difficulty == "intermediate" || difficulty == "advanced") = true
  · simp only [if_pos hC]
    exact genBaseEvents_map_priority sid arts difficulty _ _ _ _ _ _
  · simp only [if_neg hC]
    exact genBaseEvents_map_priority sid arts difficulty _ _ _ _ _ _

theorem sortedByTimestamp_of_pairwise :
    ∀ l : List Event, List.Pairwise (fun a b => eventLe a b = true) l →
      sortedByTimestamp l = true := by
  intro l
  induction l with
  | nil => intro _; rfl
  | cons a rest ih =>
    intro h
    rw [List.pairwise_cons] at h
    cases rest with
    | nil => rfl
    | cons b rest2 =>
      have h1 : eventLe a b = true := h.1 b (List.mem_cons_self _ _)
      have h2 := ih h.2
      simp [sortedByTimestamp, h1, h2]

theorem eventLe_trans (a b c : Event) (h1 : eventLe a b = true)
    (h2 : eventLe b c = true) : eventLe a c = true := by
  simp only [eventLe, decide_eq_true_eq] at *
  omega

theorem eventLe_total (a b : Event) : (eventLe a b || eventLe b a) = true := by
  simp only [eventLe, Bool.or_eq_true, decide_eq_true_eq]
  exact Int.le_total _ _

/-! ## Claim theorems: scenario generator -/

/-- C1.  Every `TimelineEvent.artifact_ids` entry produced by
`generate_timeline` is the identity of one of the artifacts passed in: no
event references an identity outside that set. -/
theorem generate_timeline_artifact_ids_subset (sid : Nat)
    (template : ScenarioTemplate) (artifacts : List Artifact)
    (difficulty : String) (now : Int) (g : Rng) :
    ((generate_timeline sid template artifacts difficulty now g).1.all fun e =>
      e.artifact_ids.all fun aid => artifacts.any fun a => a.id == aid) = true := by
  rw [List.all_eq_true]
  intro e he
  rw [List.all_eq_true]
  intro aid haid
  rw [List.any_eq_true]
  unfold generate_timeline at he
  simp only at he
  rw [List.mem_mergeSort] at he
  obtain ⟨a, ha, rfl⟩ :=
    timelineParts_artifact_ids sid template artifacts difficulty now g e he aid haid
  exact ⟨a, ha, beq_self_eq_true _⟩

/-- C2.  For each of the three difficulty levels, the event list returned
by `generate_timeline` (base events plus any merged noise events) is
sorted by non-decreasing timestamp. -/
theorem generate_timeline_sorted (sid : Nat) (template : ScenarioTemplate)
    (artifacts : List Artifact) (difficulty : String) (now : Int) (g : Rng)
    (_hd : difficulty = "beginner" ∨ difficulty = "intermediate" ∨
          difficulty = "advanced") :
    sortedByTimestamp (generate_timeline sid template artifacts difficulty now g).1
      = true := by
  apply sortedByTimestamp_of_pairwise
  unfold generate_timeline
  simp only
  exact List.sorted_mergeSort eventLe_trans eventLe_total _

theorem generate_timeline_sorted_witness :
    sortedByTimestamp (generate_timeline 0 tmplSmall [] "intermediate" 10000 rngZero).1
      = true :=
  generate_timeline_sorted 0 tmplSmall [] "intermediate" 10000 rngZero
    (Or.inr (Or.inl rfl))

/-- C3.  Each base timeline event with base priority `p` (dict default 2)
is assigned `min (p+1) 3` for beginner, `max (p-1) 1` for advanced, and
`p` unchanged for intermediate; these base events all appear in the
`generate_timeline` output. -/
theorem generate_timeline_priority_law (sid : Nat) (template : ScenarioTemplate)
    (artifacts : List Artifact) (difficulty : String) (now : Int) (g : Rng) :
    (difficulty = "beginner" →
      ((timelineParts sid template artifacts difficulty now g).1.map (·.priority))
        = template.base_timeline.map (fun b => min (b.priority.getD 2 + 1) 3)) ∧
    (difficulty = "advanced" →
      ((timelineParts sid template artifacts difficulty now g).1.map (·.priority))
        = template.base_timeline.map (fun b => max (b.priority.getD 2 - 1) 1)) ∧
    (difficulty = "intermediate" →
      ((timelineParts sid template artifacts difficulty now g).1.map (·.priority))
        = template.base_timeline.map (fun b => b.priority.getD 2)) ∧
    ((timelineParts sid template artifacts difficulty now g).1.all fun e =>
      decide (e ∈ (generate_timeline sid template artifacts difficulty now g).1)) = true := by
  refine ⟨?_, ?_, ?_, ?_⟩
  · intro h; subst h
    rw [timelineParts_map_priority]
    rfl
  · intro h; subst h
    rw [timelineParts_map_priority]
    rfl
  · intro h; subst h
    rw [timelineParts_map_priority]
    rfl
  · rw [List.all_eq_true]
    intro e he
    rw [decide_eq_true_eq]
    unfold generate_timeline
    simp only
    rw [List.mem_mergeSort]
    exact List.mem_append_left _ he

theorem generate_timeline_priority_law_witness :
    ("beginner" = "beginner" →
      ((timelineParts 0 tmplSmall [] "beginner" 10000 rngZero).1.map (·.priority))
        = tmplSmall.base_timeline.map (fun b => min (b.priority.getD 2 + 1) 3)) ∧
    ("beginner" = "advanced" →
      ((timelineParts 0 tmplSmall [] "beginner" 10000 rngZero).1.map (·.priority))
        = tmplSmall.base_timeline.map (fun b => max (b.priority.getD 2 - 1) 1)) ∧
    ("beginner" = "intermediate" →
      ((timelineParts 0 tmplSmall [] "beginner" 10000 rngZero).1.map (·.priority))
        = tmplSmall.base_timeline.map (fun b => b.priority.getD 2)) ∧
    ((timelineParts 0 tmplSmall [] "beginner" 10000 rngZero).1.all fun e =>
      decide (e ∈ (generate_timeline 0 tmplSmall [] "beginner" 10000 rngZero).1)) = true :=
  generate_timeline_priority_law 0 tmplSmall [] "beginner" 10000 rngZero

theorem generate_artifact_value_mem (g : Rng) :
    (generate_artifact_value g).1 ∈ MALICIOUS_IPS ∨
    (generate_artifact_value g).1 ∈ MALICIOUS_DOMAINS := by
  unfold generate_artifact_value
  simp only
  by_cases h : (pyrandom g).1 < 1/2
  · rw [if_pos h]; exact Or.inl (pychoice_mem _ _ _ (by decide))
  · rw [if_neg h]; exact Or.inr (pychoice_mem _ _ _ (by decide))

theorem genOneAdditionalArtifact_value_ne (sid : Nat) (g : Rng) :
    ¬((genOneAdditionalArtifact sid g).1.value = "") := by
  unfold genOneAdditionalArtifact
  simp only
  by_cases h : (pyrandom g).1 < 3/10
  · rw [if_pos h]
    show ¬(pychoice BENIGN_IPS "8.8.8.8" (uuid4 (pyrandom g).2).2).1 = ""
    intro hv
    have hm := pychoice_mem BENIGN_IPS "8.8.8.8" (uuid4 (pyrandom g).2).2 (by decide)
    rw [hv] at hm
    exact absurd hm (by decide)
  · rw [if_neg h]
    show ¬(generate_artifact_value (pychoice ["ip", "domain", "url"] "ip" (uuid4 (pyrandom g).2).2).2).1 = ""
    intro hv
    have hm := generate_artifact_value_mem
      (pychoice ["ip", "domain", "url"] "ip" (uuid4 (pyrandom g).2).2).2
    rw [hv] at hm
    rcases hm with hm | hm
    · exact absurd hm (by decide)
    · exact absurd hm (by decide)

theorem genAdditionalArtifacts_all_value (sid : Nat) :
    ∀ (n : Nat) (g : Rng),
      ((genAdditionalArtifacts sid n g).1.all fun a => !(a.value == "")) = true := by
  intro n
  induction n with
  | zero => intro g; rfl
  | succ n ih =>
    intro g
    simp only [genAdditionalArtifacts, List.all_cons, Bool.and_eq_true]
    refine ⟨?_, ih _⟩
    have h := genOneAdditionalArtifact_value_ne sid g
    simpa using h

theorem genBaseArtifacts_all_value (sid : Nat) :
    ∀ (l : List BaseArtifact) (g : Rng),
      ((genBaseArtifacts sid l g).1.all fun a => !(a.value == ""))
        = (l.all fun b => !(b.value.getD "" == "")) := by
  intro l
  induction l with
  | nil => intro g; rfl
  | cons b rest ih => intro g; simp [genBaseArtifacts, ih]

theorem genBaseArtifacts_length (sid : Nat) :
    ∀ (l : List BaseArtifact) (g : Rng),
      ((genBaseArtifacts sid l g).1).length = l.length := by
  intro l
  induction l with
  | nil => intro g; rfl
  | cons b rest ih => intro g; simp [genBaseArtifacts, ih]

theorem genAdditionalArtifacts_length (sid : Nat) :
    ∀ (n : Nat) (g : Rng), ((genAdditionalArtifacts sid n g).1).length = n := by
  intro n
  induction n with
  | zero => intro g; rfl
  | succ n ih => intro g; simp [genAdditionalArtifacts, ih]

/-- C9 counterexample.  A template whose base-artifact entry supplies no
`value` key: `generate_artifacts` copies it with `value = ''`, so the
output contains an artifact with an empty value, refuting the claim that
every returned artifact has a non-empty value. -/
theorem generate_artifacts_empty_value_counterexample :
    ((generate_artifacts 0 tmplNoValue "beginner" rngZero).1.map (·.value)).contains ""
      = true := by decide

/-- C9 (amended).  Every difficulty-scaled additional artifact has a
non-empty value (pool-drawn); base-artifact copies have non-empty values
provided each template base artifact supplies a non-empty `value` (the
copy reads `value` with default `''`). -/
theorem generate_artifacts_values_nonempty (sid : Nat)
    (template : ScenarioTemplate) (difficulty : String) (g : Rng)
    (hb : (template.base_artifacts.all fun b => !(b.value.getD "" == "")) = true) :
    ((generate_artifacts sid template difficulty g).1.all fun a => !(a.value == ""))
      = true := by
  unfold generate_artifacts
  simp only
  rw [List.all_append, Bool.and_eq_true]
  exact ⟨by rw [genBaseArtifacts_all_value]; exact hb,
         genAdditionalArtifacts_all_value sid _ _⟩

theorem generate_artifacts_values_nonempty_witness :
    ((generate_artifacts 0 tmplSmall "beginner" rngZero).1.all fun a => !(a.value == ""))
      = true :=
  generate_artifacts_values_nonempty 0 tmplSmall "beginner" rngZero (by decide)

/-- C10.  A difficulty outside the three known levels gets the beginner
artifact count (3 additional artifacts), leaves every base event priority
unchanged, and adds no noise events (the output is just the sorted base
events). -/
theorem unknown_difficulty_defaults (sid : Nat) (template : ScenarioTemplate)
    (artifacts : List Artifact) (difficulty : String) (now : Int) (g g' : Rng)
    (h1 : difficulty ≠ "beginner") (h2 : difficulty ≠ "intermediate")
    (h3 : difficulty ≠ "advanced") :
    get_artifact_count_by_difficulty difficulty = 3 ∧
    (generate_artifacts sid template difficulty g).1.length
      = template.base_artifacts.length + 3 ∧
    ((timelineParts sid template artifacts difficulty now g').1.map (·.priority))
      = template.base_timeline.map (fun b => b.priority.getD 2) ∧
    (timelineParts sid template artifacts difficulty now g').2.1 = [] ∧
    (generate_timeline sid template artifacts difficulty now g').1
      = ((timelineParts sid template artifacts difficulty now g').1).mergeSort eventLe := by
  have e1 : (difficulty == "beginner") = false := beq_eq_false_iff_ne.mpr h1
  have e2 : (difficulty == "intermediate") = false := beq_eq_false_iff_ne.mpr h2
  have e3 : (difficulty == "advanced") = false := beq_eq_false_iff_ne.mpr h3
  have hcount : get_artifact_count_by_difficulty difficulty = 3 := by
    simp [get_artifact_count_by_difficulty, e1, e2, e3]
  have hnoise : (timelineParts sid template artifacts difficulty now g').2.1 = [] := by
    unfold timelineParts
    simp only
    rw [if_neg (by simp [e2, e3])]
  refine ⟨hcount, ?_, ?_, hnoise, ?_⟩
  · unfold generate_artifacts
    simp only
    rw [List.length_append, genBaseArtifacts_length, genAdditionalArtifacts_length, hcount]
  · rw [timelineParts_map_priority]
    simp [adjustPriority, e1, e3]
  · unfold generate_timeline
    simp only
    rw [show (timelineParts sid template artifacts difficulty now g').2.1 = []
        from hnoise, List.append_nil]

theorem unknown_difficulty_defaults_witness :
    get_artifact_count_by_difficulty "easy" = 3 ∧
    (generate_artifacts 0 tmplSmall "easy" rngZero).1.length
      = tmplSmall.base_artifacts.length + 3 ∧
    ((timelineParts 0 tmplSmall [] "easy" 10000 rngZero).1.map (·.priority))
      = tmplSmall.base_timeline.map (fun b => b.priority.getD 2) ∧
    (timelineParts 0 tmplSmall [] "easy" 10000 rngZero).2.1 = [] ∧
    (generate_timeline 0 tmplSmall [] "easy" 10000 rngZero).1
      = ((timelineParts 0 tmplSmall [] "easy" 10000 rngZero).1).mergeSort eventLe :=
  unknown_difficulty_defaults 0 tmplSmall [] "easy" 10000 rngZero rngZero
    (by decide) (by decide) (by decide)

/-! ## Claim theorems: enrichment simulator and cache -/

/-- C7 counterexample.  `103.35.74.21` appears in the fixed malicious-IP
table but lies outside every `MALICIOUS_IP_RANGES` entry, and the
classifier (which consults only the ranges) reports it benign, as does
the geolocation it feeds — refuting the claimed "or appears in the
malicious-IP table" disjunct. -/
theorem known_malicious_table_counterexample :
    is_known_malicious_ip "103.35.74.21" = false ∧
    MALICIOUS_IPS.contains "103.35.74.21" = true ∧
    (generate_geolocation hashZero 0 "103.35.74.21" rngZero).1.is_malicious = false := by
  refine ⟨by decide, by decide, ?_⟩
  decide

/-- C7 (amended).  An IP is classified known-malicious if and only if it
parses as IPv4 and falls inside one of the three fixed inclusive ranges
(185.220.0.0–185.220.255.255, 91.219.0.0–91.219.255.255,
45.227.0.0–45.227.255.255); the fixed malicious-IP table is never
consulted. -/
theorem is_known_malicious_ip_iff (ip : String) :
    is_known_malicious_ip ip = true ↔
      ∃ n, ipToNat ip = some n ∧
        ((ipv4 185 220 0 0 ≤ n ∧ n ≤ ipv4 185 220 255 255) ∨
         (ipv4 91 219 0 0 ≤ n ∧ n ≤ ipv4 91 219 255 255) ∨
         (ipv4 45 227 0 0 ≤ n ∧ n ≤ ipv4 45 227 255 255)) := by
  unfold is_known_malicious_ip
  cases hip : ipToNat ip with
  | none => simp
  | some n =>
    have r1 : ipToNat "185.220.0.0" = some (ipv4 185 220 0 0) := by decide
    have r2 : ipToNat "185.220.255.255" = some (ipv4 185 220 255 255) := by decide
    have r3 : ipToNat "91.219.0.0" = some (ipv4 91 219 0 0) := by decide
    have r4 : ipToNat "91.219.255.255" = some (ipv4 91 219 255 255) := by decide
    have r5 : ipToNat "45.227.0.0" = some (ipv4 45 227 0 0) := by decide
    have r6 : ipToNat "45.227.255.255" = some (ipv4 45 227 255 255) := by decide
    rw [show MALICIOUS_IP_RANGES =
        [("185.220.0.0", "185.220.255.255"), ("91.219.0.0", "91.219.255.255"),
         ("45.227.0.0", "45.227.255.255")] from rfl]
    simp only [List.any_cons, List.any_nil]
    rw [r1, r2, r3, r4, r5, r6]
    simp only [Bool.or_eq_true, Bool.and_eq_true, decide_eq_true_eq, Bool.or_false,
      Option.some.injEq]
    constructor
    · rintro (h | h | h) <;> exact ⟨n, rfl, by tauto⟩
    · rintro ⟨m, hm, hr⟩
      cases hm
      tauto

/-- C5.  The cache lookup returns the stored payload iff the current time
is strictly before `expires_at`; a record whose expiry is at or before
now is treated as absent, and the next (geolocation) lookup then returns
freshly generated data. -/
theorem get_cached_data_expiry (s : Store) (qt qv : String) (p : Payload)
    (e now : Int) (pyhash : String → Int) (g : Rng)
    (hr : s.readOk = true) (hkv : s.kv (qt, qv) = some (p, e)) :
    (get_cached_data (some s) now qt qv = some p ↔ now < e) ∧
    (get_cached_data (some s) now qt qv = none ↔ e ≤ now) ∧
    (qt = "geolocation" → e ≤ now →
      (geolocation_lookup pyhash (some s) now qv g).1
        = Payload.geo (generate_geolocation pyhash now qv g).1) := by
  have hget : get_cached_data (some s) now qt qv = if now < e then some p else none := by
    simp only [get_cached_data, hr, hkv, if_true]
  refine ⟨?_, ?_, ?_⟩
  · rw [hget]
    by_cases hlt : now < e
    · rw [if_pos hlt]; exact ⟨fun _ => hlt, fun _ => rfl⟩
    · rw [if_neg hlt]
      constructor
      · intro h; exact absurd h (by simp)
      · intro h; exact absurd h hlt
  · rw [hget]
    by_cases hlt : now < e
    · rw [if_pos hlt]
      constructor
      · intro h; exact absurd h (by simp)
      · intro h; exact absurd hlt (by omega)
    · rw [if_neg hlt]
      constructor
      · intro _; omega
      · intro _; rfl
  · intro hqt hle
    subst hqt
    have hnone : get_cached_data (some s) now "geolocation" qv = none := by
      rw [hget, if_neg (by omega)]
    unfold geolocation_lookup
    rw [hnone]

theorem get_cached_data_expiry_witness :
    (get_cached_data (some (storeOneGeo geoFixture)) 10 "geolocation" "8.8.8.8"
        = some (Payload.geo geoFixture) ↔ (10 : Int) < 5) ∧
    (get_cached_data (some (storeOneGeo geoFixture)) 10 "geolocation" "8.8.8.8"
        = none ↔ (5 : Int) ≤ 10) ∧
    ("geolocation" = "geolocation" → (5 : Int) ≤ 10 →
      (geolocation_lookup hashZero (some (storeOneGeo geoFixture)) 10 "8.8.8.8" rngZero).1
        = Payload.geo (generate_geolocation hashZero 10 "8.8.8.8" rngZero).1) :=
  get_cached_data_expiry (storeOneGeo geoFixture) "geolocation" "8.8.8.8"
    (Payload.geo geoFixture) 5 10 hashZero rngZero rfl (by simp [storeOneGeo])

/-- Under a failing or absent store, every cache read yields `None`. -/
theorem get_cached_data_of_failure (db : Option Store) (now : Int)
    (hfail : db = none ∨ ∃ s, db = some s ∧ (s.readOk = false ∨ ∀ k, s.kv k = none)) :
    ∀ qt qv, get_cached_data db now qt qv = none := by
  intro qt qv
  rcases hfail with rfl | ⟨s, rfl, hs | hs⟩
  · rfl
  · simp [get_cached_data, hs]
  · cases hR : s.readOk <;> simp [get_cached_data, hs, hR]

/-- C6.  If the cache store is absent, raises on read, or is empty with a
(possibly raising) write, every enrichment lookup still answers the caller
with the freshly generated result: cache failures never surface. -/
theorem cache_failure_isolated (pyhash : String → Int) (db : Option Store)
    (now : Int) (v : String) (g : Rng)
    (hfail : db = none ∨ ∃ s, db = some s ∧ (s.readOk = false ∨ ∀ k, s.kv k = none)) :
    (geolocation_lookup pyhash db now v g).1
      = Payload.geo (generate_geolocation pyhash now v g).1 ∧
    (whois_lookup db now v g).1 = Payload.whois (generate_whois now v g).1 ∧
    (pdns_lookup db now v g).1 = Payload.pdns (generate_pdns now v g).1 ∧
    (reverse_dns_lookup db now v g).1 = generate_reverse_dns v ∧
    (shodan_lookup pyhash db now v g).1
      = Payload.shodan (generate_shodan pyhash now v g).1 := by
  have hn := get_cached_data_of_failure db now hfail
  refine ⟨?_, ?_, ?_, ?_, ?_⟩
  · unfold geolocation_lookup; rw [hn "geolocation" v]
  · unfold whois_lookup; rw [hn "whois" v]
  · unfold pdns_lookup; rw [hn "pdns" v]
  · unfold reverse_dns_lookup; rw [hn "reverse_dns" v]
    cases hrev : generate_reverse_dns v <;> rfl
  · unfold shodan_lookup; rw [hn "shodan" v]

theorem cache_failure_isolated_witness :
    (geolocation_lookup hashZero none 0 "8.8.8.8" rngZero).1
      = Payload.geo (generate_geolocation hashZero 0 "8.8.8.8" rngZero).1 ∧
    (whois_lookup none 0 "8.8.8.8" rngZero).1
      = Payload.whois (generate_whois 0 "8.8.8.8" rngZero).1 ∧
    (pdns_lookup none 0 "8.8.8.8" rngZero).1
      = Payload.pdns (generate_pdns 0 "8.8.8.8" rngZero).1 ∧
    (reverse_dns_lookup none 0 "8.8.8.8" rngZero).1 = generate_reverse_dns "8.8.8.8" ∧
    (shodan_lookup hashZero none 0 "8.8.8.8" rngZero).1
      = Payload.shodan (generate_shodan hashZero 0 "8.8.8.8" rngZero).1 :=
  cache_failure_isolated hashZero none 0 "8.8.8.8" rngZero (Or.inl rfl)

/-- C4 counterexample.  Two independent generations for `8.8.8.8` (as
happen when no cache session exists, the configuration the unit tests
run) with identical jitter draws agree on country and maliciousness and
have *equal* latitude/longitude — yet differ in `usage_type`, a
non-jittered field, refuting "only the explicitly jittered fields
(latitude/longitude) may differ between independent generations". -/
theorem geolocation_jitter_counterexample :
    (generate_geolocation hashZero 0 "8.8.8.8" rngZero).1.usage_type = "Commercial" ∧
    (generate_geolocation hashZero 0 "8.8.8.8" rngOne).1.usage_type = "Residential" ∧
    (generate_geolocation hashZero 0 "8.8.8.8" rngZero).1.latitude
      = (generate_geolocation hashZero 0 "8.8.8.8" rngOne).1.latitude ∧
    (generate_geolocation hashZero 0 "8.8.8.8" rngZero).1.longitude
      = (generate_geolocation hashZero 0 "8.8.8.8" rngOne).1.longitude ∧
    (generate_geolocation hashZero 0 "8.8.8.8" rngZero).1.country_code
      = (generate_geolocation hashZero 0 "8.8.8.8" rngOne).1.country_code ∧
    (generate_geolocation hashZero 0 "8.8.8.8" rngZero).1.is_malicious
      = (generate_geolocation hashZero 0 "8.8.8.8" rngOne).1.is_malicious :=
  ⟨rfl, rfl, rfl, rfl, rfl, rfl⟩

/-- C4 (amended).  With a working store, a second `geolocation_lookup`
before the first result's expiry returns the first payload verbatim (in
particular identical `country_code`, `country_name`, `is_malicious`); and
any two independent generations for the same IP agree on `country_code`,
`country_name` and `is_malicious`, though the randomized cosmetic fields
(coordinate jitter, `usage_type`, abuse score, report count,
last-reported date) may differ. -/
theorem geolocation_lookup_ttl_consistent (pyhash : String → Int) (s : Store)
    (ip : String) (t1 t2 now1 now2 : Int) (g1 g2 g3 g4 : Rng)
    (hr : s.readOk = true) (hw : s.writeOk = true) :
    (∃ s1 e,
      (geolocation_lookup pyhash (some s) t1 ip g1).2.1 = some s1 ∧
      s1.kv ("geolocation", ip)
        = some ((geolocation_lookup pyhash (some s) t1 ip g1).1, e) ∧
      (t2 < e →
        (geolocation_lookup pyhash (some s1) t2 ip g2).1
          = (geolocation_lookup pyhash (some s) t1 ip g1).1)) ∧
    ((generate_geolocation pyhash now1 ip g3).1.country_code
        = (generate_geolocation pyhash now2 ip g4).1.country_code ∧
     (generate_geolocation pyhash now1 ip g3).1.country_name
        = (generate_geolocation pyhash now2 ip g4).1.country_name ∧
     (generate_geolocation pyhash now1 ip g3).1.is_malicious
        = (generate_geolocation pyhash now2 ip g4).1.is_malicious) := by
  constructor
  · cases hc : get_cached_data (some s) t1 "geolocation" ip with
    | some c =>
      have h1 : ∃ e, s.kv ("geolocation", ip) = some (c, e) ∧ t1 < e := by
        revert hc
        simp only [get_cached_data, hr, if_true]
        cases hk : s.kv ("geolocation", ip) with
        | none => intro h; cases h
        | some pe =>
          cases pe with
          | mk pp ee =>
            dsimp only
            by_cases ht : t1 < ee
            · rw [if_pos ht]
              intro h
              injection h with h'
              exact ⟨ee, by rw [h'], ht⟩
            · rw [if_neg ht]
              intro h; cases h
      obtain ⟨e, hk, ht⟩ := h1
      have hres : (geolocation_lookup pyhash (some s) t1 ip g1).1 = c := by
        unfold geolocation_lookup; rw [hc]
      refine ⟨s, e, ?_, ?_, ?_⟩
      · unfold geolocation_lookup; rw [hc]
      · rw [hres, hk]
      · intro h2
        have hc2 : get_cached_data (some s) t2 "geolocation" ip = some c := by
          simp only [get_cached_data, hr, if_true, hk, if_pos h2]
        have e1 : (geolocation_lookup pyhash (some s) t2 ip g2).1 = c := by
          unfold geolocation_lookup; rw [hc2]
        rw [e1, hres]
    | none =>
      have hres : (geolocation_lookup pyhash (some s) t1 ip g1).1
          = Payload.geo (generate_geolocation pyhash t1 ip g1).1 := by
        unfold geolocation_lookup; rw [hc]
      refine ⟨⟨fun k => if k = ("geolocation", ip) then
          some (Payload.geo (generate_geolocation pyhash t1 ip g1).1, t1 + CACHE_DURATION)
        else s.kv k, s.readOk, s.writeOk⟩, t1 + CACHE_DURATION, ?_, ?_, ?_⟩
      · unfold geolocation_lookup; rw [hc]
        simp only [cache_data, hw, if_true]
      · rw [hres]
        simp
      · intro h2
        have hc2 : get_cached_data
            (some ⟨fun k => if k = ("geolocation", ip) then
                some (Payload.geo (generate_geolocation pyhash t1 ip g1).1, t1 + CACHE_DURATION)
              else s.kv k, s.readOk, s.writeOk⟩) t2 "geolocation" ip
            = some (Payload.geo (generate_geolocation pyhash t1 ip g1).1) := by
          simp only [get_cached_data, hr, if_true, if_pos rfl]
          rw [if_pos h2]
        have e1 : (geolocation_lookup pyhash
            (some ⟨fun k => if k = ("geolocation", ip) then
                some (Payload.geo (generate_geolocation pyhash t1 ip g1).1, t1 + CACHE_DURATION)
              else s.kv k, s.readOk, s.writeOk⟩) t2 ip g2).1
            = Payload.geo (generate_geolocation pyhash t1 ip g1).1 := by
          unfold geolocation_lookup; rw [hc2]
        rw [e1, hres]
  · cases hp : isPrivateIp ip <;> simp [generate_geolocation, hp]

theorem geolocation_lookup_ttl_consistent_witness :
    (∃ s1 e,
      (geolocation_lookup hashZero (some storeEmpty) 0 "8.8.8.8" rngZero).2.1 = some s1 ∧
      s1.kv ("geolocation", "8.8.8.8")
        = some ((geolocation_lookup hashZero (some storeEmpty) 0 "8.8.8.8" rngZero).1, e) ∧
      ((1 : Int) < e →
        (geolocation_lookup hashZero (some s1) 1 "8.8.8.8" rngOne).1
          = (geolocation_lookup hashZero (some storeEmpty) 0 "8.8.8.8" rngZero).1)) ∧
    ((generate_geolocation hashZero 0 "8.8.8.8" rngZero).1.country_code
        = (generate_geolocation hashZero 5 "8.8.8.8" rngOne).1.country_code ∧
     (generate_geolocation hashZero 0 "8.8.8.8" rngZero).1.country_name
        = (generate_geolocation hashZero 5 "8.8.8.8" rngOne).1.country_name ∧
     (generate_geolocation hashZero 0 "8.8.8.8" rngZero).1.is_malicious
        = (generate_geolocation hashZero 5 "8.8.8.8" rngOne).1.is_malicious) :=
  geolocation_lookup_ttl_consistent hashZero storeEmpty "8.8.8.8" 0 1 0 5
    rngZero rngOne rngZero rngOne rfl rfl

theorem genAddressRecords_mem (ty : String) (now : Int) :
    ∀ (l : List String) (g : Rng), ∀ r ∈ (genAddressRecords ty now l g).1,
      r.type = ty ∧ r.value ∈ l := by
  intro l
  induction l with
  | nil => intro g r hr; simp [genAddressRecords] at hr
  | cons ip rest ih =>
    intro g r hr
    simp only [genAddressRecords, List.mem_cons] at hr
    rcases hr with hr | hr
    · subst hr; exact ⟨rfl, List.mem_cons_self _ _⟩
    · obtain ⟨h1, h2⟩ := ih _ r hr
      exact ⟨h1, List.mem_cons_of_mem _ h2⟩

theorem genMxRecords_type (now : Int) :
    ∀ (l : List String) (g : Rng), ∀ r ∈ (genMxRecords now l g).1,
      r.type = "MX" := by
  intro l
  induction l with
  | nil => intro g r hr; simp [genMxRecords] at hr
  | cons host rest ih =>
    intro g r hr
    simp only [genMxRecords, List.mem_cons] at hr
    rcases hr with hr | hr
    · subst hr; rfl
    · exact ih _ r hr

theorem genSimpleRecords_type (ty : String) (now : Int) :
    ∀ (l : List String) (g : Rng), ∀ r ∈ (genSimpleRecords ty now l g).1,
      r.type = ty := by
  intro l
  induction l with
  | nil => intro g r hr; simp [genSimpleRecords] at hr
  | cons v rest ih =>
    intro g r hr
    simp only [genSimpleRecords, List.mem_cons] at hr
    rcases hr with hr | hr
    · subst hr; rfl
    · exact ih _ r hr

/-- C8 counterexample.  `secure.com` contains the keyword `secure`, which
makes WHOIS mark it suspicious, but passive DNS — whose keyword list
omits `secure` — classifies it benign, refuting "the same keyword rule as
`whois_lookup`". -/
theorem pdns_secure_keyword_counterexample :
    (generate_pdns 0 "secure.com" rngZero).1.is_suspicious = false ∧
    containsWord "secure.com" "secure" = true ∧
    (generate_whois 0 "secure.com" rngZero).1.is_suspicious = some true := by
  refine ⟨by decide, by decide, by decide⟩

/-- C8 (amended).  Passive DNS classifies a domain suspicious iff it
contains one of `malware, c2, phishing, evil, bad, test` — the WHOIS rule
minus `secure`; when suspicious, every A record's value is drawn from the
fixed malicious-IP triple and no AAAA record is present. -/
theorem generate_pdns_suspicious_iff (domain : String) (now : Int) (g : Rng) :
    ((generate_pdns now domain g).1.is_suspicious = true ↔
      (containsWord domain "malware" = true ∨ containsWord domain "c2" = true ∨
       containsWord domain "phishing" = true ∨ containsWord domain "evil" = true ∨
       containsWord domain "bad" = true ∨ containsWord domain "test" = true)) ∧
    ((generate_pdns now domain g).1.is_suspicious = true →
      ((generate_pdns now domain g).1.records.all fun r =>
        (!(r.type == "A") || (r.value == "185.220.101.42" ||
          r.value == "91.219.236.166" || r.value == "45.227.254.12")) &&
        !(r.type == "AAAA")) = true) := by
  have hsusp : (generate_pdns now domain g).1.is_suspicious = pdnsSuspicious domain := rfl
  constructor
  · rw [hsusp]
    unfold pdnsSuspicious
    simp only [List.any_cons, List.any_nil, Bool.or_eq_true, Bool.or_false]
  · intro hs
    rw [hsusp] at hs
    unfold generate_pdns
    dsimp only
    rw [List.all_eq_true]
    intro r hr
    simp only [hs, if_true, List.append_nil, List.nil_append, List.mem_append] at hr
    rcases hr with ((hr | hr) | hr) | hr
    · obtain ⟨hty, hval⟩ := genAddressRecords_mem "A" now _ _ r hr
      have hval3 := List.take_subset _ _ hval
      have e2 : ¬(("A" : String) == "AAAA") = true := by decide
      simp only [List.mem_cons, List.not_mem_nil, or_false] at hval3
      rcases hval3 with h | h | h <;>
        simp [hty, h]
    · have hty := genMxRecords_type now _ _ r hr
      simp [hty]
    · have hty := genSimpleRecords_type "NS" now _ _ r hr
      simp [hty]
    · have hty := genSimpleRecords_type "TXT" now _ _ r hr
      simp [hty]

theorem generate_pdns_suspicious_iff_witness :
    ((generate_pdns 0 "malware.com" rngZero).1.is_suspicious = true ↔
      (containsWord "malware.com" "malware" = true ∨
       containsWord "malware.com" "c2" = true ∨
       containsWord "malware.com" "phishing" = true ∨
       containsWord "malware.com" "evil" = true ∨
       containsWord "malware.com" "bad" = true ∨
       containsWord "malware.com" "test" = true)) ∧
    ((generate_pdns 0 "malware.com" rngZero).1.is_suspicious = true →
      ((generate_pdns 0 "malware.com" rngZero).1.records.all fun r =>
        (!(r.type == "A") || (r.value == "185.220.101.42" ||
          r.value == "91.219.236.166" || r.value == "45.227.254.12")) &&
        !(r.type == "AAAA")) = true) :=
  generate_pdns_suspicious_iff "malware.com" 0 rngZero

end SocSim
